import Mathlib

/-!
Verification of `src/realm/object-store/util/apple/scheduler.hpp`
(realm-core): the run-loop and dispatch-queue scheduler backends.

Pointers and native handles (`CFRunLoopRef`, `dispatch_queue_t`) are
modelled as natural numbers (`0` standing for the null pointer).  The
machine word width of `std::atomic<size_t>` is 64 bits, so reference
counts live in `Nat` reduced modulo `2 ^ 64` at each update, exactly
mirroring `fetch_add` wrap-around.
-/

/-- Width of `size_t` on the target platform: arithmetic on the holder field
`std::atomic<size_t> ref_count` wraps modulo this. -/
def W64 : Nat := 2 ^ 64

/-- A deferred unit of work.  A task is identified by `id`; executing it
may enqueue further tasks (`spawns`) back into the same scheduler, which
is the only task effect the scheduler code can observe. -/
inductive SchedTask where
  | mk (id : Nat) (spawns : List SchedTask)

def SchedTask.id : SchedTask → Nat
  | .mk i _ => i

def SchedTask.spawns : SchedTask → List SchedTask
  | .mk _ s => s

/-- Modelled from the spec: `realm::util::InvocationQueue` (declared in
`realm/object-store/util/scheduler.hpp`, implementation not in the
excerpt) is an ordered buffer of tasks. -/
structure InvocationQueue where
  tasks : List SchedTask

/-- Modelled from the spec: `push(task)` appends a ready-to-run task at
the tail of the buffer. -/
def InvocationQueue.push (q : InvocationQueue) (t : SchedTask) : InvocationQueue :=
  ⟨q.tasks ++ [t]⟩

/-- Executing one task: its `spawns` are pushed, in order, into the
queue that will be drained next time. -/
def runTask (q : InvocationQueue) (t : SchedTask) : InvocationQueue :=
  t.spawns.foldl InvocationQueue.push q

/-- Run a list of drained tasks in order against the live queue `q`
(which buffers re-entrant pushes), extending the execution log with the
id of each task as it runs. -/
def runTasks : List SchedTask → InvocationQueue → List Nat → InvocationQueue × List Nat
  | [], q, log => (q, log)
  | t :: rest, q, log => runTasks rest (runTask q t) (log ++ [t.id])

/-- Modelled from the spec: `invoke_all` / `drain_all` atomically takes
ownership of every currently-buffered task, clears the queue to empty,
and executes the drained tasks in FIFO order; tasks pushed by a running
task land in the cleared live queue, to be drained next time.  Returns
the queue as left after the drain and the log of executed task ids. -/
def InvocationQueue.invoke_all (q : InvocationQueue) : InvocationQueue × List Nat :=
  runTasks q.tasks ⟨[]⟩ []

/-- `RefCountedInvocationQueue` (scheduler.hpp lines 30-33): the queue
together with its `std::atomic<size_t> ref_count` (initially 0). -/
structure RefCountedInvocationQueue where
  queue : InvocationQueue
  ref_count : Nat

/-- A heap cell for the holder: `alive = false` once `delete ptr` ran. -/
structure HolderCell where
  holder : RefCountedInvocationQueue
  alive : Bool

/-- `ctx.retain` (scheduler.hpp lines 69-73):
`ref_count.fetch_add(1, relaxed)`. -/
def ctx_retain (c : HolderCell) : HolderCell :=
  { c with holder := { c.holder with ref_count := (c.holder.ref_count + 1) % W64 } }

/-- `ctx.release` (scheduler.hpp lines 74-79): `fetch_add(-1, acq_rel)`
(wrapping on `size_t`), and `delete ptr` exactly when the fetched old
value was 1. -/
def ctx_release (c : HolderCell) : HolderCell :=
  { holder := { c.holder with ref_count := (c.holder.ref_count + (W64 - 1)) % W64 },
    alive := if c.holder.ref_count == 1 then false else c.alive }

/-- `ctx.perform` (scheduler.hpp lines 66-68): the run-loop source
perform callback calls `queue.invoke_all()` on the referenced holder.
Returns the updated holder and the ids executed by this drain. -/
def ctx_perform (h : RefCountedInvocationQueue) : RefCountedInvocationQueue × List Nat :=
  let r := h.queue.invoke_all
  ({ h with queue := r.1 }, r.2)

theorem runTasks_spec (ts : List SchedTask) (q : InvocationQueue) (log : List Nat) :
    runTasks ts q log =
      (⟨q.tasks ++ (ts.map SchedTask.spawns).flatten⟩, log ++ ts.map SchedTask.id) := by
  induction ts generalizing q log with
  | nil => simp [runTasks]
  | cons t rest ih =>
      rw [runTasks, ih]
      have hrun : (runTask q t).tasks = q.tasks ++ t.spawns := by
        show (t.spawns.foldl InvocationQueue.push q).tasks = q.tasks ++ t.spawns
        induction t.spawns generalizing q with
        | nil => simp
        | cons s ss ihs => simp [List.foldl, ihs, InvocationQueue.push]
      simp [hrun]

/-- C1: one drain triggered by the run-loop source perform callback
executes the tasks buffered before the drain in strict FIFO order,
each exactly once (the execution log is exactly the buffered ids in
push order), and every task enqueued by a running task is buffered in
the queue for the next drain instead of being executed now. -/
theorem c1_drain_fifo_snapshot (h : RefCountedInvocationQueue) :
    (ctx_perform h).2 = h.queue.tasks.map SchedTask.id ∧
    (ctx_perform h).1.queue.tasks = (h.queue.tasks.map SchedTask.spawns).flatten ∧
    (ctx_perform h).1.ref_count = h.ref_count := by
  simp [ctx_perform, InvocationQueue.invoke_all, runTasks_spec]

/-- The state that `RunLoopScheduler::invoke` acts on: the referenced
holder, the signalled flag of the registered `CFRunLoopSource`, whether
the bound run loop has been woken, and the log of task ids already
executed by past drains. -/
structure RunLoopWorld where
  holder : RefCountedInvocationQueue
  signaled : Bool
  wokenUp : Bool
  executedLog : List Nat

/-- One primitive step performed by `RunLoopScheduler::invoke`
(scheduler.hpp lines 92-101): a push into the invocation queue, a
`CFRunLoopSourceSignal`, or a `CFRunLoopWakeUp`. -/
inductive RLEffect where
  | push (t : SchedTask)
  | sourceSignal
  | wakeUp

/-- Semantics of the primitive invoke steps on the run-loop world; none
of them executes a task (the executed log is owned by `ctx_perform`). -/
def applyRLEffect (w : RunLoopWorld) : RLEffect → RunLoopWorld
  | .push t => { w with holder := { w.holder with queue := w.holder.queue.push t } }
  | .sourceSignal => { w with signaled := true }
  | .wakeUp => { w with wokenUp := true }

/-- `RunLoopScheduler::invoke` (scheduler.hpp lines 92-101) as the exact
sequence of primitive steps its body performs, in program order:
`m_queue.queue.push(std::move(fn))`, then `CFRunLoopSourceSignal`, then
`CFRunLoopWakeUp`. -/
def RunLoopScheduler.invokeTrace (fn : SchedTask) : List RLEffect :=
  [RLEffect.push fn, RLEffect.sourceSignal, RLEffect.wakeUp]

/-- `RunLoopScheduler::invoke` as a state transformer: it runs its trace. -/
def RunLoopScheduler.invokeStep (w : RunLoopWorld) (fn : SchedTask) : RunLoopWorld :=
  (RunLoopScheduler.invokeTrace fn).foldl applyRLEffect w

/-- The state that `DispatchQueueScheduler::invoke` acts on: blocks
already submitted to the dispatch queue but not yet run, and the log of
task ids already executed on the queue. -/
structure DispatchWorld where
  pendingBlocks : List SchedTask
  executedLog : List Nat

/-- `DispatchQueueScheduler::invoke` (scheduler.hpp lines 179-185):
`dispatch_async` submits one block running `fn` to the bound queue; the
block is queued behind previously submitted blocks and runs later. -/
def DispatchQueueScheduler.invokeStep (w : DispatchWorld) (fn : SchedTask) : DispatchWorld :=
  { w with pendingBlocks := w.pendingBlocks ++ [fn] }

/-- C2: for both backend variants `invoke` never executes the task
before returning: `RunLoopScheduler::invoke` only pushes the task,
signals the source and wakes the loop, leaving the executed log
untouched, and `DispatchQueueScheduler::invoke` only submits the task
asynchronously, also leaving the executed log untouched. -/
theorem c2_invoke_not_synchronous (w : RunLoopWorld) (d : DispatchWorld) (fn : SchedTask) :
    ((RunLoopScheduler.invokeStep w fn).executedLog = w.executedLog ∧
      (RunLoopScheduler.invokeStep w fn).holder.queue.tasks = w.holder.queue.tasks ++ [fn]) ∧
    ((DispatchQueueScheduler.invokeStep d fn).executedLog = d.executedLog ∧
      (DispatchQueueScheduler.invokeStep d fn).pendingBlocks = d.pendingBlocks ++ [fn]) := by
  simp [RunLoopScheduler.invokeStep, RunLoopScheduler.invokeTrace, applyRLEffect,
    DispatchQueueScheduler.invokeStep, InvocationQueue.push]

/-- C7: `RunLoopScheduler::invoke` performs the push as its first step,
pushes exactly once, and after the push performs both a source signal
and an explicit run-loop wake-up, on every call. -/
theorem c7_invoke_push_then_signal_wake (fn : SchedTask) :
    (RunLoopScheduler.invokeTrace fn).head? = some (RLEffect.push fn) ∧
    (∀ j t, (RunLoopScheduler.invokeTrace fn).get? j = some (RLEffect.push t) →
      j = 0 ∧ t = fn) ∧
    (∃ j, 0 < j ∧ (RunLoopScheduler.invokeTrace fn).get? j = some RLEffect.sourceSignal) ∧
    (∃ k, 0 < k ∧ (RunLoopScheduler.invokeTrace fn).get? k = some RLEffect.wakeUp) := by
  refine ⟨rfl, ?_, ⟨1, by simp, rfl⟩, ⟨2, by simp, rfl⟩⟩
  intro j t hj
  match j, hj with
  | 0, hj => simpa [RunLoopScheduler.invokeTrace, eq_comm] using hj
  | 1, hj => simp [RunLoopScheduler.invokeTrace] at hj
  | 2, hj => simp [RunLoopScheduler.invokeTrace] at hj
  | (n + 3), hj => simp [RunLoopScheduler.invokeTrace] at hj

/-- What `RunLoopScheduler::can_invoke` observes about the calling
thread: `pthread_main_np()` and
`CFRunLoopCopyCurrentMode(CFRunLoopGetCurrent())` (the current run-loop
mode, `none` when no run-loop callout is being processed). -/
structure ThreadCtx where
  isMainThread : Bool
  currentMode : Option String

/-- `RunLoopScheduler::can_invoke` (scheduler.hpp lines 114-129): true
on the main thread; otherwise true exactly when the run loop of the current thread
loop reports a non-null current mode. -/
def RunLoopScheduler.can_invoke (ctx : ThreadCtx) : Bool :=
  if ctx.isMainThread then true
  else
    match ctx.currentMode with
    | some _ => true
    | none => false

/-- C8: `can_invoke` returns true whenever the calling thread is the
main thread, and on any other thread it returns true exactly when the
current run loop of the calling thread reports a non-null current mode. -/
theorem c8_can_invoke (ctx : ThreadCtx) :
    RunLoopScheduler.can_invoke ctx = true ↔
      ctx.isMainThread = true ∨ ctx.currentMode ≠ none := by
  cases hm : ctx.isMainThread <;> cases hc : ctx.currentMode <;>
    simp [RunLoopScheduler.can_invoke, hm, hc]

/-- The identity-bearing fields of a `RunLoopScheduler` object
(scheduler.hpp lines 49-52): the retained `CFRunLoopRef` handle and the
created `CFRunLoopSourceRef` handle, as native pointers. -/
structure RunLoopScheduler where
  m_runloop : Nat
  m_notify_signal : Nat

/-- The identity-bearing field of a `DispatchQueueScheduler` object
(scheduler.hpp line 146): the retained `dispatch_queue_t` handle as a
native pointer. -/
structure DispatchQueueScheduler where
  m_queue : Nat

/-- A `util::Scheduler` value is one of the two concrete backends
defined in scheduler.hpp. -/
inductive Scheduler where
  | runLoop (s : RunLoopScheduler)
  | dispatchQueue (s : DispatchQueueScheduler)

/-- `dynamic_cast<const RunLoopScheduler*>` on a possibly-null
`const Scheduler*`: some only when the dynamic type of the pointee is
`RunLoopScheduler`. -/
def Scheduler.asRunLoop : Option Scheduler → Option RunLoopScheduler
  | some (.runLoop s) => some s
  | _ => none

/-- `dynamic_cast<const DispatchQueueScheduler*>` on a possibly-null
`const Scheduler*`. -/
def Scheduler.asDispatchQueue : Option Scheduler → Option DispatchQueueScheduler
  | some (.dispatchQueue s) => some s
  | _ => none

/-- `RunLoopScheduler::is_same_as` (scheduler.hpp lines 108-112):
downcast, then compare the wrapped run-loop handles. -/
def RunLoopScheduler.is_same_as (self : RunLoopScheduler) (other : Option Scheduler) : Bool :=
  match Scheduler.asRunLoop other with
  | some o => o.m_runloop == self.m_runloop
  | none => false

/-- `DispatchQueueScheduler::is_same_as` (scheduler.hpp lines 192-196):
downcast, then compare the wrapped queue handles. -/
def DispatchQueueScheduler.is_same_as (self : DispatchQueueScheduler)
    (other : Option Scheduler) : Bool :=
  match Scheduler.asDispatchQueue other with
  | some o => o.m_queue == self.m_queue
  | none => false

/-- Virtual dispatch of `is_same_as` on the dynamic type of the receiver. -/
def Scheduler.is_same_as (self : Scheduler) (other : Option Scheduler) : Bool :=
  match self with
  | .runLoop s => s.is_same_as other
  | .dispatchQueue s => s.is_same_as other

/-- Whether two schedulers are instances of the same concrete backend
variant. -/
def Scheduler.sameKind : Scheduler → Scheduler → Bool
  | .runLoop _, .runLoop _ => true
  | .dispatchQueue _, .dispatchQueue _ => true
  | _, _ => false

/-- The native identity a scheduler wraps: its run-loop handle or its
queue handle. -/
def Scheduler.nativeIdentity : Scheduler → Nat
  | .runLoop s => s.m_runloop
  | .dispatchQueue s => s.m_queue

/-- C4: `a.is_same_as(&b)` is true exactly when `a` and `b` are the same
concrete backend variant and wrap an identical native identity, and
`is_same_as` on a null pointer is false. -/
theorem c4_is_same_as_iff (a b : Scheduler) :
    (a.is_same_as (some b) = true ↔
      a.sameKind b = true ∧ a.nativeIdentity = b.nativeIdentity) ∧
    a.is_same_as none = false := by
  have hnone : a.is_same_as none = false := by
    cases a <;> rfl
  refine ⟨?_, hnone⟩
  cases a with
  | runLoop s =>
      cases b with
      | runLoop o =>
          simp only [Scheduler.is_same_as, RunLoopScheduler.is_same_as, Scheduler.asRunLoop,
            Scheduler.sameKind, Scheduler.nativeIdentity, beq_iff_eq, true_and]
          exact eq_comm
      | dispatchQueue o =>
          simp [Scheduler.is_same_as, RunLoopScheduler.is_same_as, Scheduler.asRunLoop,
            Scheduler.sameKind]
  | dispatchQueue s =>
      cases b with
      | runLoop o =>
          simp [Scheduler.is_same_as, DispatchQueueScheduler.is_same_as,
            Scheduler.asDispatchQueue, Scheduler.sameKind]
      | dispatchQueue o =>
          simp only [Scheduler.is_same_as, DispatchQueueScheduler.is_same_as,
            Scheduler.asDispatchQueue, Scheduler.sameKind, Scheduler.nativeIdentity,
            beq_iff_eq, true_and]
          exact eq_comm

/-- A native dispatch queue as the constructor observes and mutates it:
its handle (the `dispatch_queue_t` pointer, non-null for a real queue),
its label (`dispatch_queue_get_label`, `none` for a null label), the
name of the Objective-C class reported by `object_getClass`, and the
value stored under `c_queue_key` via `dispatch_queue_set_specific`
(0 when no value was set). -/
structure DispatchQueue where
  handle : Nat
  label : Option String
  cls : String
  specific : Nat
deriving DecidableEq

/-- The class name compared against `objc_getClass("OS_dispatch_queue_serial")`. -/
def serialClassName : String := "OS_dispatch_queue_serial"

/-- The class name compared against `objc_getClass("OS_dispatch_queue_main")`. -/
def mainClassName : String := "OS_dispatch_queue_main"

/-- The message built by `util::format` in the constructor
(scheduler.hpp lines 160-162): names the queue label (or `<nil>`) and
the observed class name. -/
def invalidQueueMessage (q : DispatchQueue) : String :=
  "Invalid queue \x27" ++ q.label.getD "<nil>" ++ "\x27 (" ++ q.cls ++
    "): Realms can only be confined to serial queues or the main queue."

/-- `DispatchQueueScheduler::DispatchQueueScheduler` (scheduler.hpp
lines 152-170): when the availability check passes and the observed
class is neither the serial-queue class nor the main-queue class, throw
`InvalidArgument` with the formatted message (no scheduler object is
produced); otherwise retain the queue and, only when no value is yet
stored under `c_queue_key`, store the queue handle itself there.
Returns the constructed scheduler and the queue as left behind. -/
def DispatchQueueScheduler.construct (available : Bool) (q : DispatchQueue) :
    Except String (DispatchQueueScheduler × DispatchQueue) :=
  if available && !(q.cls == serialClassName) && !(q.cls == mainClassName) then
    Except.error (invalidQueueMessage q)
  else
    Except.ok ({ m_queue := q.handle },
      if q.specific == 0 then { q with specific := q.handle } else q)

/-- `DispatchQueueScheduler::is_on_thread` (scheduler.hpp lines
187-190): compare `dispatch_get_specific(c_queue_key)` — the value the
currently-executing queue hierarchy stores under `c_queue_key`, 0 when
there is none — with the bound queue handle. -/
def DispatchQueueScheduler.is_on_thread (s : DispatchQueueScheduler)
    (currentSpecific : Nat) : Bool :=
  currentSpecific == s.m_queue

theorem construct_ok_spec (available : Bool) (q : DispatchQueue)
    (s : DispatchQueueScheduler) (q2 : DispatchQueue)
    (h : DispatchQueueScheduler.construct available q = Except.ok (s, q2)) :
    s.m_queue = q.handle ∧ q2.handle = q.handle ∧
    q2.specific = (if q.specific == 0 then q.handle else q.specific) ∧
    q2.cls = q.cls ∧ q2.label = q.label := by
  unfold DispatchQueueScheduler.construct at h
  split at h
  · exact absurd h (by simp)
  · rw [Except.ok.injEq, Prod.mk.injEq] at h
    obtain ⟨hs, hq⟩ := h
    subst hs
    subst hq
    refine ⟨rfl, ?_, ?_, ?_, ?_⟩ <;> split <;> simp

/-- C3: constructing a `DispatchQueueScheduler` (on a platform where the
availability check passes) with a queue whose observed class is neither
the strictly-serial-queue class nor the main-queue class fails with an
invalid-configuration error whose message names the queue label and the
observed class, and no scheduler object is created; constructing with a
serial-class or main-class queue succeeds and binds the queue handle. -/
theorem c3_construct_rejects_concurrent (q qs : DispatchQueue)
    (hc : q.cls ≠ serialClassName ∧ q.cls ≠ mainClassName)
    (hs : qs.cls = serialClassName ∨ qs.cls = mainClassName) :
    DispatchQueueScheduler.construct true q =
      Except.error ("Invalid queue \x27" ++ q.label.getD "<nil>" ++ "\x27 (" ++ q.cls ++
        "): Realms can only be confined to serial queues or the main queue.") ∧
    ∃ s q2, DispatchQueueScheduler.construct true qs = Except.ok (s, q2) ∧
      s.m_queue = qs.handle := by
  constructor
  · unfold DispatchQueueScheduler.construct
    rw [if_pos]
    · rfl
    · simp [hc.1, hc.2]
  · refine ⟨{ m_queue := qs.handle },
      if qs.specific == 0 then { qs with specific := qs.handle } else qs, ?_, rfl⟩
    unfold DispatchQueueScheduler.construct
    rw [if_neg]
    rcases hs with h | h <;> simp [h]

/-- Witness for C3 at a concrete concurrent queue and a concrete serial
queue. -/
theorem c3_construct_rejects_concurrent_witness :
    (("OS_dispatch_queue_concurrent" ≠ serialClassName ∧
        "OS_dispatch_queue_concurrent" ≠ mainClassName) ∧
      ("OS_dispatch_queue_serial" = serialClassName ∨
        "OS_dispatch_queue_serial" = mainClassName)) ∧
    (DispatchQueueScheduler.construct true ⟨7, some "bg", "OS_dispatch_queue_concurrent", 0⟩ =
      Except.error ("Invalid queue \x27" ++ (some "bg").getD "<nil>" ++ "\x27 (" ++
        "OS_dispatch_queue_concurrent" ++
        "): Realms can only be confined to serial queues or the main queue.") ∧
    ∃ s q2, DispatchQueueScheduler.construct true ⟨9, none, "OS_dispatch_queue_serial", 0⟩ =
        Except.ok (s, q2) ∧ s.m_queue = 9) :=
  ⟨⟨by decide, by decide⟩,
    c3_construct_rejects_concurrent
      ⟨7, some "bg", "OS_dispatch_queue_concurrent", 0⟩
      ⟨9, none, "OS_dispatch_queue_serial", 0⟩
      ⟨by decide, by decide⟩ (Or.inl rfl)⟩

/-- C10: constructing a second scheduler over a queue that already
carries a value under `c_queue_key` leaves that value unchanged, and
since a fresh construction stores the queue handle itself as the marker,
any two schedulers obtained by constructing over the same queue (the
second seeing the queue as the first left it) compare the
calling-context marker against the same handle: their `is_on_thread`
answers agree, and each is true exactly when the current marker equals
the bound queue handle. -/
theorem c10_queue_marker_stable (available : Bool) (q q1 q2 : DispatchQueue)
    (s1 s2 : DispatchQueueScheduler) (cur : Nat)
    (h1 : DispatchQueueScheduler.construct available q = Except.ok (s1, q1))
    (h2 : DispatchQueueScheduler.construct available q1 = Except.ok (s2, q2)) :
    (q.specific ≠ 0 → q1.specific = q.specific) ∧
    s1.is_on_thread cur = s2.is_on_thread cur ∧
    s1.is_on_thread cur = (cur == q.handle) := by
  obtain ⟨hm1, hh1, hsp1, _, _⟩ := construct_ok_spec available q s1 q1 h1
  obtain ⟨hm2, _, _, _, _⟩ := construct_ok_spec available q1 s2 q2 h2
  refine ⟨?_, ?_, ?_⟩
  · intro hnz
    rw [hsp1, if_neg]
    simpa using hnz
  · simp [DispatchQueueScheduler.is_on_thread, hm1, hm2, hh1]
  · simp [DispatchQueueScheduler.is_on_thread, hm1]

/-- Witness for C10: a serial queue whose marker was already set to its
own handle before the first construction. -/
theorem c10_queue_marker_stable_witness :
    (DispatchQueueScheduler.construct true ⟨5, none, "OS_dispatch_queue_serial", 5⟩ =
        Except.ok (⟨5⟩, ⟨5, none, "OS_dispatch_queue_serial", 5⟩) ∧
      DispatchQueueScheduler.construct true ⟨5, none, "OS_dispatch_queue_serial", 5⟩ =
        Except.ok (⟨5⟩, ⟨5, none, "OS_dispatch_queue_serial", 5⟩)) ∧
    (((5 : Nat) ≠ 0 → (5 : Nat) = 5) ∧
      DispatchQueueScheduler.is_on_thread ⟨5⟩ 5 = DispatchQueueScheduler.is_on_thread ⟨5⟩ 5 ∧
      DispatchQueueScheduler.is_on_thread ⟨5⟩ 5 = ((5 : Nat) == 5)) :=
  ⟨⟨rfl, rfl⟩,
    c10_queue_marker_stable true
      ⟨5, none, "OS_dispatch_queue_serial", 5⟩
      ⟨5, none, "OS_dispatch_queue_serial", 5⟩
      ⟨5, none, "OS_dispatch_queue_serial", 5⟩
      ⟨5⟩ ⟨5⟩ 5 rfl rfl⟩

/-- The operations that touch the holder cell anywhere in the
translation unit: the retain and release context callbacks, the perform
callback (a drain), and a push from `RunLoopScheduler::invoke`. -/
inductive HolderOp where
  | retain
  | release
  | performOp
  | pushOp (t : SchedTask)

/-- Effect of each holder-touching operation on the holder cell. -/
def applyHolderOp (c : HolderCell) : HolderOp → HolderCell
  | .retain => ctx_retain c
  | .release => ctx_release c
  | .performOp => { c with holder := (ctx_perform c.holder).1 }
  | .pushOp t => { c with holder := { c.holder with queue := c.holder.queue.push t } }

theorem w64_dec_mod (x : Nat) (h1 : 0 < x) (h2 : x < W64) :
    (x + (W64 - 1)) % W64 = x - 1 := by
  simp only [W64] at *
  omega

/-- C5: the retain callback increments the reference count, the release
callback decrements it, and the holder is destroyed by the release
callback precisely when the decremented count reaches zero (the fetched
old value was 1); no other operation on the holder destroys it. -/
theorem c5_refcount_lifecycle (c : HolderCell) (op : HolderOp)
    (halive : c.alive = true) (hlt : c.holder.ref_count < W64) :
    (applyHolderOp c HolderOp.retain).holder.ref_count = (c.holder.ref_count + 1) % W64 ∧
    (0 < c.holder.ref_count →
      (applyHolderOp c HolderOp.release).holder.ref_count = c.holder.ref_count - 1) ∧
    ((applyHolderOp c op).alive = false ↔
      op = HolderOp.release ∧ c.holder.ref_count = 1) := by
  refine ⟨rfl, ?_, ?_⟩
  · intro hpos
    show (c.holder.ref_count + (W64 - 1)) % W64 = c.holder.ref_count - 1
    exact w64_dec_mod _ hpos hlt
  · cases op with
    | retain => simp [applyHolderOp, ctx_retain, halive]
    | release =>
        simp only [applyHolderOp, ctx_release]
        rcases Nat.decEq c.holder.ref_count 1 with h | h
        · simp [if_neg, h, halive, beq_iff_eq]
        · simp [h, beq_iff_eq]
    | performOp => simp [applyHolderOp, halive]
    | pushOp t => simp [applyHolderOp, halive]

/-- Witness for C5: a live holder cell with reference count 1, released. -/
theorem c5_refcount_lifecycle_witness :
    ((HolderCell.mk ⟨⟨[]⟩, 1⟩ true).alive = true ∧
      (HolderCell.mk ⟨⟨[]⟩, 1⟩ true).holder.ref_count < W64) ∧
    ((applyHolderOp (HolderCell.mk ⟨⟨[]⟩, 1⟩ true) HolderOp.retain).holder.ref_count =
        ((HolderCell.mk ⟨⟨[]⟩, 1⟩ true).holder.ref_count + 1) % W64 ∧
      (0 < (HolderCell.mk ⟨⟨[]⟩, 1⟩ true).holder.ref_count →
        (applyHolderOp (HolderCell.mk ⟨⟨[]⟩, 1⟩ true) HolderOp.release).holder.ref_count =
          (HolderCell.mk ⟨⟨[]⟩, 1⟩ true).holder.ref_count - 1) ∧
      ((applyHolderOp (HolderCell.mk ⟨⟨[]⟩, 1⟩ true) HolderOp.release).alive = false ↔
        HolderOp.release = HolderOp.release ∧
          (HolderCell.mk ⟨⟨[]⟩, 1⟩ true).holder.ref_count = 1)) :=
  ⟨⟨rfl, by decide⟩,
    c5_refcount_lifecycle (HolderCell.mk ⟨⟨[]⟩, 1⟩ true) HolderOp.release rfl (by decide)⟩

/-- The run-loop backend lifecycle world: the holder cell together with
which parties currently hold counted references to it.  Modelled from
the spec: the external source machinery takes its own copy of the
context pointer (calling `ctx.retain`) when the source is created, the
loop takes one reference per registration, and the loop may additionally
hold transient references for in-flight callouts (`loopPendingRefs`). -/
structure RLSWorld where
  cell : HolderCell
  sourceValid : Bool
  sourceContextRef : Bool
  loopRegisteredRef : Bool
  loopPendingRefs : Nat
  runloopRetained : Bool

/-- Number of counted references outstanding in a lifecycle world. -/
def refsOf (w : RLSWorld) : Nat :=
  (if w.sourceContextRef then 1 else 0) + (if w.loopRegisteredRef then 1 else 0) +
    w.loopPendingRefs

/-- `RunLoopScheduler::RunLoopScheduler` (scheduler.hpp lines 58-83):
allocates a fresh holder (`ref_count` 0), retains the run loop, creates
the source (modelled from the spec: source creation copies the context
and calls `ctx.retain` — the reference the backend owns through its
source), and adds the source to the loop (modelled from the spec: the
registration makes the loop call `ctx.retain` once). -/
def RunLoopScheduler.construct : RLSWorld :=
  { cell := ctx_retain (ctx_retain ⟨⟨⟨[]⟩, 0⟩, true⟩),
    sourceValid := true, sourceContextRef := true,
    loopRegisteredRef := true, loopPendingRefs := 0, runloopRetained := true }

/-- `RunLoopScheduler::~RunLoopScheduler` (scheduler.hpp lines 85-90):
`CFRunLoopSourceInvalidate` (modelled from the spec: the loop forgets
the source and drops its registration reference via `ctx.release`),
then `CFRelease(m_notify_signal)` (modelled from the spec: the last
reference to the source is dropped, so the source releases its context
reference via `ctx.release`), then `CFRelease(m_runloop)`.  The
destructor itself never deletes the holder. -/
def RunLoopScheduler.destruct (w : RLSWorld) : RLSWorld :=
  let w1 :=
    if w.loopRegisteredRef then
      { w with cell := ctx_release w.cell, loopRegisteredRef := false, sourceValid := false }
    else { w with sourceValid := false }
  let w2 :=
    if w1.sourceContextRef then { w1 with cell := ctx_release w1.cell, sourceContextRef := false }
    else w1
  { w2 with runloopRetained := false }

/-- Modelled from the spec: the loop dropping one of its transient
(in-flight callout) references, calling `ctx.release`. -/
def loopReleasePending (w : RLSWorld) : RLSWorld :=
  if 0 < w.loopPendingRefs then
    { w with cell := ctx_release w.cell, loopPendingRefs := w.loopPendingRefs - 1 }
  else w

/-- C6: when the loop still holds a transient reference, running the
destructor leaves the holder alive with its queue untouched and exactly
the loop-held references outstanding; only once the loop releases its
last reference is the holder destroyed. -/
theorem c6_destructor_defers_free (w : RLSWorld)
    (hwf : w.cell.holder.ref_count = refsOf w) (hlt : refsOf w < W64)
    (halive : w.cell.alive = true) (hsrc : w.sourceContextRef = true)
    (hreg : w.loopRegisteredRef = true) (hpend : 0 < w.loopPendingRefs) :
    (RunLoopScheduler.destruct w).cell.alive = true ∧
    (RunLoopScheduler.destruct w).cell.holder.queue = w.cell.holder.queue ∧
    (RunLoopScheduler.destruct w).cell.holder.ref_count = w.loopPendingRefs ∧
    (w.loopPendingRefs = 1 →
      (loopReleasePending (RunLoopScheduler.destruct w)).cell.alive = false) := by
  have hrc : w.cell.holder.ref_count = 2 + w.loopPendingRefs := by
    rw [hwf]
    simp [refsOf, hsrc, hreg]
  have hlt2 : 2 + w.loopPendingRefs < W64 := by
    rw [← hrc, hwf]
    exact hlt
  have hdest : RunLoopScheduler.destruct w =
      { cell := ctx_release (ctx_release w.cell), sourceValid := false,
        sourceContextRef := false, loopRegisteredRef := false,
        loopPendingRefs := w.loopPendingRefs, runloopRetained := false } := by
    simp [RunLoopScheduler.destruct, hreg, hsrc]
  simp only [W64] at hlt2
  have e1 : (2 + w.loopPendingRefs + (W64 - 1)) % W64 = 1 + w.loopPendingRefs := by
    simp only [W64]
    omega
  have hb1 : (2 + w.loopPendingRefs == 1) = false := by
    simp only [beq_eq_false_iff_ne, ne_eq]
    omega
  have e2 : (1 + w.loopPendingRefs + (W64 - 1)) % W64 = w.loopPendingRefs := by
    simp only [W64]
    omega
  have hb2 : (1 + w.loopPendingRefs == 1) = false := by
    simp only [beq_eq_false_iff_ne, ne_eq]
    omega
  have hcell : ctx_release (ctx_release w.cell) =
      ⟨⟨w.cell.holder.queue, w.loopPendingRefs⟩, true⟩ := by
    simp [ctx_release, hrc, e1, hb1, e2, hb2, halive]
  refine ⟨?_, ?_, ?_, ?_⟩
  · rw [hdest, hcell]
  · rw [hdest, hcell]
  · rw [hdest, hcell]
  · intro h1
    rw [hdest, hcell, h1]
    simp [loopReleasePending, ctx_release]

/-- A lifecycle world in which the loop holds one transient reference
(an in-flight signalled callout) besides its registration. -/
def pendingWorld : RLSWorld :=
  { cell := ⟨⟨⟨[]⟩, 3⟩, true⟩, sourceValid := true, sourceContextRef := true,
    loopRegisteredRef := true, loopPendingRefs := 1, runloopRetained := true }

/-- Witness for C6 at the concrete world `pendingWorld`. -/
theorem c6_destructor_defers_free_witness :
    (pendingWorld.cell.holder.ref_count = refsOf pendingWorld ∧
      refsOf pendingWorld < W64 ∧ pendingWorld.cell.alive = true ∧
      pendingWorld.sourceContextRef = true ∧ pendingWorld.loopRegisteredRef = true ∧
      0 < pendingWorld.loopPendingRefs) ∧
    ((RunLoopScheduler.destruct pendingWorld).cell.alive = true ∧
      (RunLoopScheduler.destruct pendingWorld).cell.holder.queue =
        pendingWorld.cell.holder.queue ∧
      (RunLoopScheduler.destruct pendingWorld).cell.holder.ref_count =
        pendingWorld.loopPendingRefs ∧
      (pendingWorld.loopPendingRefs = 1 →
        (loopReleasePending (RunLoopScheduler.destruct pendingWorld)).cell.alive = false)) :=
  ⟨⟨by decide, by decide, rfl, rfl, rfl, by decide⟩,
    c6_destructor_defers_free pendingWorld (by decide) (by decide) rfl rfl rfl (by decide)⟩

/-- C9: after construction the holder has exactly two counted
references — the one the backend owns through its source and the one
the loop holds for the registration — and running the destructor (with
no transient loop references outstanding) releases both, destroying the
holder with the count at zero. -/
theorem c9_two_owners :
    RunLoopScheduler.construct.cell.holder.ref_count = 2 ∧
    RunLoopScheduler.construct.sourceContextRef = true ∧
    RunLoopScheduler.construct.loopRegisteredRef = true ∧
    RunLoopScheduler.construct.loopPendingRefs = 0 ∧
    refsOf RunLoopScheduler.construct = 2 ∧
    (RunLoopScheduler.destruct RunLoopScheduler.construct).cell.holder.ref_count = 0 ∧
    (RunLoopScheduler.destruct RunLoopScheduler.construct).cell.alive = false ∧
    (RunLoopScheduler.destruct RunLoopScheduler.construct).sourceContextRef = false ∧
    (RunLoopScheduler.destruct RunLoopScheduler.construct).loopRegisteredRef = false := by
  refine ⟨?_, rfl, rfl, rfl, ?_, ?_, ?_, rfl, rfl⟩ <;> decide
